import Mathlib

/-!
Shallow embedding of the myFlix REST API backend (src/js/index.js): user
records, the movie catalog, and the route handlers for registration
(POST /users), profile update (PUT /users/:Username), favorites add/remove
(POST and DELETE /users/:Username/movies/:MovieID) and user listing
(GET /users).  Mongoose store primitives (findOne, findById with ObjectId
casting, findOneAndUpdate with $set / $addToSet / $pull) are embedded as
explicit functions on an application-state record.  HTTP status codes are
plain naturals; each handler maps a state and a request to a status code
paired with the successor state.
-/

namespace MyFlix

/-- A stored user document (the `Users` collection of models.js): Username,
Password (the stored digest), Email, Birthday, and the FavoriteMovies array
of movie-id strings. -/
structure UserRec where
  Username : String
  Password : String
  Email : String
  Birthday : String
  FavoriteMovies : List String
deriving DecidableEq, Repr

/-- The durable state the handlers touch: the Users collection and the
Catalog Store, the latter represented by its list of movie `_id` strings —
the handlers consult movies only through `Movies.findById` existence. -/
structure AppState where
  users : List UserRec
  movies : List String
deriving DecidableEq, Repr

/-- Model of mongoose ObjectId castability: `findById` casts its argument to
an ObjectId and rejects the promise (CastError) when the string is neither a
24-character hexadecimal string nor a 12-character string. -/
def isValidObjectId (s : String) : Bool :=
  s.data.length == 12 ||
    (s.data.length == 24 && s.data.all fun c =>
      c.isDigit || ('a' ≤ c && c ≤ 'f') || ('A' ≤ c && c ≤ 'F'))

/-- `Movies.findById(id)`: CastError (`.error`) on an uncastable id string,
otherwise the movie id when present in the catalog, `none` when absent. -/
def moviesFindById (movies : List String) (id : String) :
    Except Unit (Option String) :=
  if isValidObjectId id then .ok (movies.find? (· == id)) else .error ()

/-- `Users.findOne({ Username: name })`: first user document whose Username
equals `name`. -/
def findUser (users : List UserRec) (name : String) : Option UserRec :=
  users.find? (fun v => v.Username == name)

/-- Replace the first document whose Username matches `name` by its image
under `f`; the write half of `Users.findOneAndUpdate`. -/
def updateFirst (users : List UserRec) (name : String) (f : UserRec → UserRec) :
    List UserRec :=
  match users with
  | [] => []
  | u :: rest =>
      if u.Username == name then f u :: rest
      else u :: updateFirst rest name f

/-- `Users.findOneAndUpdate({ Username: name }, update, { new: true })`:
`none` and an unchanged collection when no document matches, otherwise the
updated document together with the collection holding it. -/
def findOneAndUpdate (users : List UserRec) (name : String)
    (f : UserRec → UserRec) : Option UserRec × List UserRec :=
  match findUser users name with
  | none => (none, users)
  | some u => (some (f u), updateFirst users name f)

/-- MongoDB `$addToSet`: append the value when absent, leave the array
untouched when already present. -/
def addToSet (l : List String) (x : String) : List String :=
  if x ∈ l then l else l ++ [x]

/-- MongoDB `$pull`: remove every occurrence of the value. -/
def pull (l : List String) (x : String) : List String :=
  l.filter fun y => decide (y ≠ x)

/-- JavaScript `v || ''` on a string: the empty string stays empty (falsy),
every other string passes through. -/
def orEmpty (s : String) : String :=
  if s.data.isEmpty then "" else s

/-- Modelled from the spec: `Users.hashPassword` lives in models.js, which is
absent from src/ — per the spec it is a salted, irreversible bcrypt digest,
never the raw plaintext.  Modelled as an injective tagged encoding that is
distinct from every plaintext (bcrypt digests carry the `$2b$` prefix tag). -/
def hashPassword (p : String) : String :=
  "$2b$" ++ p

/-- validator.js `isAlphanumeric` (default en-US locale): the string is
nonempty and made of ASCII letters and digits only. -/
def isAlphanumericStr (s : String) : Bool :=
  !s.data.isEmpty && s.data.all fun c => c.isAlpha || c.isDigit

/-- validator.js `isEmail`, modelled (external npm dependency, not repository
code): exactly one `@`, a nonempty local part, and a domain that contains a
dot neither leading nor trailing. -/
def isEmail (s : String) : Bool :=
  let cs := s.data
  (cs.count '@' == 1) &&
    (let lp := cs.takeWhile (· != '@')
     let dom := (cs.dropWhile (· != '@')).drop 1
     !lp.isEmpty && dom.contains '.' && (dom.head? != some '.') &&
       (dom.getLast? != some '.'))

/-- The JSON body of POST /users and PUT /users/:Username. -/
structure RegReq where
  Username : String
  Password : String
  Email : String
  Birthday : String
deriving DecidableEq, Repr

/-- The four express-validator checks shared by registration and profile
update: Username isLength min 5, Username isAlphanumeric, Password not
empty, Email isEmail.  `validationResult` is empty iff all four pass. -/
def validateFields (r : RegReq) : Bool :=
  decide (5 ≤ r.Username.data.length) && isAlphanumericStr r.Username &&
    !r.Password.data.isEmpty && isEmail r.Email

/-- POST /users (index.js lines 133–179): 422 when a field check fails,
409 when `Users.findOne` finds the username taken, otherwise
`Users.create` stores the document, Password hashed, and 201 returns it. -/
def registerHandler (s : AppState) (r : RegReq) : Nat × AppState :=
  if validateFields r then
    match findUser s.users r.Username with
    | some _ => (409, s)
    | none =>
        (201, { s with users := s.users ++
          [⟨r.Username, hashPassword r.Password, r.Email, r.Birthday, []⟩] })
  else (422, s)

/-- PUT /users/:Username (index.js lines 182–239): 422 on field-validation
failure; 409 when `Users.findOne({ Username: req.body.Username })` finds any
document — the check does not exempt the target user itself; otherwise
`findOneAndUpdate` $sets Username, Password (hashed), Email, Birthday on the
document matching the path parameter: 404 when none matches, 200 otherwise. -/
def updateUserHandler (s : AppState) (paramUsername : String) (r : RegReq) :
    Nat × AppState :=
  if validateFields r then
    match findUser s.users r.Username with
    | some _ => (409, s)
    | none =>
        match findOneAndUpdate s.users paramUsername (fun u =>
          { u with
            Username := r.Username
            Password := hashPassword r.Password
            Email := r.Email
            Birthday := r.Birthday }) with
        | (none, users') => (404, { s with users := users' })
        | (some _, users') => (200, { s with users := users' })
  else (422, s)

/-- POST /users/:Username/movies/:MovieID (index.js lines 242–267): a
CastError from `Movies.findById` is caught as 404; otherwise the resolved
value — present movie or `null` alike — is discarded (`.then(() => …)`) and
`findOneAndUpdate` $addToSets the id into FavoriteMovies: 404 when the user
is missing, 201 otherwise. -/
def addFavoriteHandler (s : AppState) (username movieId : String) :
    Nat × AppState :=
  match moviesFindById s.movies movieId with
  | .error _ => (404, s)
  | .ok _ =>
      match findOneAndUpdate s.users username (fun u =>
        { u with FavoriteMovies := addToSet u.FavoriteMovies (orEmpty movieId) }) with
      | (none, users') => (404, { s with users := users' })
      | (some _, users') => (201, { s with users := users' })

/-- DELETE /users/:Username/movies/:MovieID (index.js lines 270–293): same
shape as the add route with `$pull` in place of `$addToSet` and 200 in place
of 201. -/
def removeFavoriteHandler (s : AppState) (username movieId : String) :
    Nat × AppState :=
  match moviesFindById s.movies movieId with
  | .error _ => (404, s)
  | .ok _ =>
      match findOneAndUpdate s.users username (fun u =>
        { u with FavoriteMovies := pull u.FavoriteMovies (orEmpty movieId) }) with
      | (none, users') => (404, { s with users := users' })
      | (some _, users') => (200, { s with users := users' })

/-- GET /users (index.js lines 65–79): `Users.find()` resolves to the full
array of stored documents and the handler serialises it as-is (the
`!users` guard never fires on an array); no field is redacted. -/
def listUsers (s : AppState) : List UserRec :=
  s.users

/-- Usernames are pairwise distinct across the Users collection. -/
def usernamesUnique (users : List UserRec) : Prop :=
  users.Pairwise fun a b => a.Username ≠ b.Username

/-- Modelled from the spec: the JWT signature produced by auth.js and checked
by the passport.js JWT strategy, both absent from src/ — a keyed digest over
subject, issuedAt and expiresAt.  Modelled as an executable keyed product
code. -/
def signPayload (secret : Nat) (subject : String) (issuedAt expiresAt : Nat) :
    Nat :=
  (secret + 1) * (subject.length + 1) * (issuedAt + 1) * (expiresAt + 1)

/-- An access token: subject identity, issue and expiry instants, and the
carried signature. -/
structure Token where
  subject : String
  issuedAt : Nat
  expiresAt : Nat
  sig : Nat
deriving DecidableEq, Repr

/-- Authentication failures of the Token Verifier. -/
inductive AuthError where
  | MalformedToken
  | TokenExpired
deriving DecidableEq, Repr

/-- Modelled from the spec: Login Service token issuance (auth.js, absent
from src/) — subject = username, expiry fixed at issuance. -/
def issueToken (secret : Nat) (subject : String) (now lifetime : Nat) :
    Token :=
  ⟨subject, now, now + lifetime, signPayload secret subject now (now + lifetime)⟩

/-- Modelled from the spec: the Token Verifier (passport.js JWT strategy,
absent from src/) — MalformedToken when the signature does not match,
TokenExpired when current time ≥ expiry, otherwise the subject identity. -/
def verifyToken (secret now : Nat) (t : Token) : Except AuthError String :=
  if t.sig ≠ signPayload secret t.subject t.issuedAt t.expiresAt then
    .error .MalformedToken
  else if t.expiresAt ≤ now then .error .TokenExpired
  else .ok t.subject

/-! ### Helper lemmas about the embedded store primitives -/

theorem orEmpty_eq (s : String) : orEmpty s = s := by
  unfold orEmpty
  cases s with
  | mk data =>
      cases data with
      | nil => rfl
      | cons c cs => simp [List.isEmpty]

theorem findUser_username (l : List UserRec) (n : String) (u : UserRec)
    (h : findUser l n = some u) : u.Username = n := by
  have := List.find?_some h
  simpa using this

theorem findUser_mem (l : List UserRec) (n : String) (u : UserRec)
    (h : findUser l n = some u) : u ∈ l :=
  List.mem_of_find?_eq_some h

theorem findUser_eq_none_iff (l : List UserRec) (n : String) :
    findUser l n = none ↔ ∀ u ∈ l, u.Username ≠ n := by
  unfold findUser
  rw [List.find?_eq_none]
  simp

theorem findUser_isSome_iff (l : List UserRec) (n : String) :
    (∃ u, findUser l n = some u) ↔ ∃ u ∈ l, u.Username = n := by
  constructor
  · rintro ⟨u, hu⟩
    exact ⟨u, findUser_mem l n u hu, findUser_username l n u hu⟩
  · rintro ⟨u, hmem, hname⟩
    rcases h : findUser l n with _ | v
    · exact absurd hname ((findUser_eq_none_iff l n).mp h u hmem)
    · exact ⟨v, rfl⟩

theorem updateFirst_of_findUser_none (l : List UserRec) (n : String)
    (f : UserRec → UserRec) (h : findUser l n = none) :
    updateFirst l n f = l := by
  induction l with
  | nil => rfl
  | cons u rest ih =>
      unfold findUser at h
      rw [List.find?_cons] at h
      unfold updateFirst
      rcases hu : (u.Username == n) with _ | _
      · rw [hu] at h
        simp only [cond_false] at h
        rw [ih h]
        simp
      · rw [hu] at h
        simp at h

theorem updateFirst_eq_of_fix (l : List UserRec) (n : String)
    (f : UserRec → UserRec) (u : UserRec) (h : findUser l n = some u)
    (hfix : f u = u) : updateFirst l n f = l := by
  induction l with
  | nil => simp [findUser] at h
  | cons v rest ih =>
      unfold findUser at h
      rw [List.find?_cons] at h
      unfold updateFirst
      rcases hv : (v.Username == n) with _ | _
      · rw [hv] at h
        simp only [cond_false] at h
        rw [ih h]
        simp
      · rw [hv] at h
        simp only [cond_true, Option.some.injEq] at h
        subst h
        simp [hfix]

theorem findUser_updateFirst (l : List UserRec) (n : String)
    (f : UserRec → UserRec) (hf : ∀ v, (f v).Username = v.Username) :
    findUser (updateFirst l n f) n = (findUser l n).map f := by
  induction l with
  | nil => rfl
  | cons v rest ih =>
      unfold updateFirst
      rcases hv : (v.Username == n) with _ | _
      · show findUser (v :: updateFirst rest n f) n = Option.map f (findUser (v :: rest) n)
        unfold findUser
        rw [List.find?_cons, List.find?_cons, hv]
        simpa [findUser, cond_false] using ih
      · show findUser (f v :: rest) n = Option.map f (findUser (v :: rest) n)
        unfold findUser
        have hfv : ((f v).Username == n) = true := by rw [hf v]; exact hv
        rw [List.find?_cons, List.find?_cons, hv, hfv]
        simp

theorem findUser_decomp (l : List UserRec) (n : String) (u : UserRec)
    (h : findUser l n = some u) :
    ∃ pre post, l = pre ++ u :: post ∧ (∀ v ∈ pre, v.Username ≠ n) ∧
      ∀ f : UserRec → UserRec, updateFirst l n f = pre ++ f u :: post := by
  induction l with
  | nil => simp [findUser] at h
  | cons v rest ih =>
      unfold findUser at h
      rw [List.find?_cons] at h
      rcases hv : (v.Username == n) with _ | _
      · rw [hv] at h
        simp only [cond_false] at h
        obtain ⟨pre, post, hsplit, hpre, hupd⟩ := ih h
        refine ⟨v :: pre, post, by rw [hsplit]; rfl, ?_, ?_⟩
        · intro w hw
          rcases List.mem_cons.mp hw with hw | hw
          · subst hw
            simpa using hv
          · exact hpre w hw
        · intro f
          unfold updateFirst
          rw [hv, hupd f]
          simp
      · rw [hv] at h
        simp only [cond_true, Option.some.injEq] at h
        refine ⟨[], rest, by simp [h], by simp, ?_⟩
        intro f
        unfold updateFirst
        rw [hv, h]
        simp

theorem addToSet_of_mem (l : List String) (x : String) (h : x ∈ l) :
    addToSet l x = l := by
  simp [addToSet, h]

theorem mem_addToSet_self (l : List String) (x : String) :
    x ∈ addToSet l x := by
  unfold addToSet
  by_cases h : x ∈ l
  · simp [h]
  · simp [h]

theorem nodup_addToSet (l : List String) (x : String) (h : l.Nodup) :
    (addToSet l x).Nodup := by
  unfold addToSet
  by_cases hx : x ∈ l
  · simpa [hx]
  · rw [if_neg hx, List.nodup_append]
    refine ⟨h, List.nodup_singleton x, ?_⟩
    intro a ha hax
    rw [List.mem_singleton] at hax
    subst hax
    exact hx ha

theorem not_mem_pull (l : List String) (x : String) : x ∉ pull l x := by
  unfold pull
  intro h
  have := (List.mem_filter.mp h).2
  simp at this

theorem pull_of_not_mem (l : List String) (x : String) (h : x ∉ l) :
    pull l x = l := by
  unfold pull
  rw [List.filter_eq_self]
  intro a ha
  have hax : a ≠ x := fun e => h (e ▸ ha)
  simp [hax]

/-! ### Branch characterizations of the route handlers -/

theorem registerHandler_invalid (s : AppState) (r : RegReq)
    (hv : validateFields r = false) : registerHandler s r = (422, s) := by
  unfold registerHandler
  rw [hv]
  rfl

theorem registerHandler_dup (s : AppState) (r : RegReq) (u : UserRec)
    (hv : validateFields r = true)
    (hdup : findUser s.users r.Username = some u) :
    registerHandler s r = (409, s) := by
  unfold registerHandler
  rw [hv, hdup]
  rfl

theorem registerHandler_ok (s : AppState) (r : RegReq)
    (hv : validateFields r = true)
    (hfree : findUser s.users r.Username = none) :
    registerHandler s r = (201, { s with users := s.users ++
      [⟨r.Username, hashPassword r.Password, r.Email, r.Birthday, []⟩] }) := by
  unfold registerHandler
  rw [hv, hfree]
  rfl

/-- The `$set` document of PUT /users/:Username applied to a matched user. -/
def setProfile (r : RegReq) (v : UserRec) : UserRec :=
  { v with
    Username := r.Username
    Password := hashPassword r.Password
    Email := r.Email
    Birthday := r.Birthday }

theorem updateUserHandler_invalid (s : AppState) (p : String) (r : RegReq)
    (hv : validateFields r = false) : updateUserHandler s p r = (422, s) := by
  unfold updateUserHandler
  rw [hv]
  rfl

theorem updateUserHandler_conflict (s : AppState) (p : String) (r : RegReq)
    (u : UserRec) (hv : validateFields r = true)
    (hdup : findUser s.users r.Username = some u) :
    updateUserHandler s p r = (409, s) := by
  unfold updateUserHandler
  rw [hv, hdup]
  rfl

theorem updateUserHandler_notfound (s : AppState) (p : String) (r : RegReq)
    (hv : validateFields r = true)
    (hfree : findUser s.users r.Username = none)
    (hp : findUser s.users p = none) :
    updateUserHandler s p r = (404, s) := by
  unfold updateUserHandler findOneAndUpdate
  rw [hv, hfree, hp]
  rfl

theorem updateUserHandler_ok (s : AppState) (p : String) (r : RegReq)
    (u : UserRec) (hv : validateFields r = true)
    (hfree : findUser s.users r.Username = none)
    (hp : findUser s.users p = some u) :
    updateUserHandler s p r =
      (200, { s with users := updateFirst s.users p (setProfile r) }) := by
  unfold updateUserHandler findOneAndUpdate setProfile
  rw [hv, hfree, hp]
  rfl

/-- The `$addToSet` update document of POST /users/:Username/movies/:MovieID
applied to a matched user. -/
def addFavToUser (mid : String) (v : UserRec) : UserRec :=
  { v with FavoriteMovies := addToSet v.FavoriteMovies (orEmpty mid) }

/-- The `$pull` update document of DELETE /users/:Username/movies/:MovieID
applied to a matched user. -/
def pullFavFromUser (mid : String) (v : UserRec) : UserRec :=
  { v with FavoriteMovies := pull v.FavoriteMovies (orEmpty mid) }

theorem addFavoriteHandler_cast_error (s : AppState) (uname mid : String)
    (h : isValidObjectId mid = false) :
    addFavoriteHandler s uname mid = (404, s) := by
  unfold addFavoriteHandler moviesFindById
  rw [h]
  rfl

theorem addFavoriteHandler_user_missing (s : AppState) (uname mid : String)
    (hmid : isValidObjectId mid = true)
    (hu : findUser s.users uname = none) :
    addFavoriteHandler s uname mid = (404, s) := by
  unfold addFavoriteHandler moviesFindById findOneAndUpdate
  rw [hmid, hu]
  rfl

theorem addFavoriteHandler_found (s : AppState) (uname mid : String)
    (u : UserRec) (hmid : isValidObjectId mid = true)
    (hu : findUser s.users uname = some u) :
    addFavoriteHandler s uname mid =
      (201, { s with users := updateFirst s.users uname (addFavToUser mid) }) := by
  unfold addFavoriteHandler moviesFindById findOneAndUpdate addFavToUser
  rw [hmid, hu]
  rfl

theorem removeFavoriteHandler_cast_error (s : AppState) (uname mid : String)
    (h : isValidObjectId mid = false) :
    removeFavoriteHandler s uname mid = (404, s) := by
  unfold removeFavoriteHandler moviesFindById
  rw [h]
  rfl

theorem removeFavoriteHandler_user_missing (s : AppState) (uname mid : String)
    (hmid : isValidObjectId mid = true)
    (hu : findUser s.users uname = none) :
    removeFavoriteHandler s uname mid = (404, s) := by
  unfold removeFavoriteHandler moviesFindById findOneAndUpdate
  rw [hmid, hu]
  rfl

theorem removeFavoriteHandler_found (s : AppState) (uname mid : String)
    (u : UserRec) (hmid : isValidObjectId mid = true)
    (hu : findUser s.users uname = some u) :
    removeFavoriteHandler s uname mid =
      (200, { s with users := updateFirst s.users uname (pullFavFromUser mid) }) := by
  unfold removeFavoriteHandler moviesFindById findOneAndUpdate pullFavFromUser
  rw [hmid, hu]
  rfl

/-! ### The claims -/

/-- C1: the spec demands that addFavorite fail with 404 and mutate nothing
whenever no movie bears the given id, but the route discards the result of
`Movies.findById` and only 404s when the id fails to cast.  With "alice01"
stored and an empty catalog, the castable hex id "aaaaaaaaaaaaaaaaaaaaaaaa"
names no movie, yet the route answers 201 and adds the phantom id to the
favorites set. -/
theorem addFavorite_phantom_movie_mutates :
    ("aaaaaaaaaaaaaaaaaaaaaaaa" ∉
        (AppState.mk [⟨"alice01", "$2b$pw", "a@b.com", "1990", []⟩] []).movies) ∧
      addFavoriteHandler ⟨[⟨"alice01", "$2b$pw", "a@b.com", "1990", []⟩], []⟩
          "alice01" "aaaaaaaaaaaaaaaaaaaaaaaa" =
        (201, ⟨[⟨"alice01", "$2b$pw", "a@b.com", "1990",
          ["aaaaaaaaaaaaaaaaaaaaaaaa"]⟩], []⟩) :=
  ⟨by simp, by rfl⟩

/-- C2: counterexample — "alice01" is the only stored user, so a validated
update of /users/alice01 that keeps Username "alice01" collides with no
*different* user, yet the handler answers 409 and changes nothing. -/
theorem update_keeping_own_username_409 :
    validateFields ⟨"alice01", "pw", "a@b.com", "1990"⟩ = true ∧
      updateUserHandler ⟨[⟨"alice01", "$2b$old", "a@b.com", "1990", []⟩], []⟩
          "alice01" ⟨"alice01", "pw", "a@b.com", "1990"⟩ =
        (409, ⟨[⟨"alice01", "$2b$old", "a@b.com", "1990", []⟩], []⟩) :=
  ⟨by rfl, by rfl⟩

/-- C2 (amended): a profile update passing field validation fails with 409
iff the target new username equals the username of some existing user — any
user, the updating user included, so keeping one's own username also 409s. -/
theorem update_409_iff_target_username_exists (s : AppState) (p : String)
    (r : RegReq) (hv : validateFields r = true) :
    (updateUserHandler s p r).1 = 409 ↔
      ∃ u ∈ s.users, u.Username = r.Username := by
  constructor
  · intro h409
    rcases hfind : findUser s.users r.Username with _ | u
    · exfalso
      rcases hp : findUser s.users p with _ | w
      · rw [updateUserHandler_notfound s p r hv hfind hp] at h409
        simp at h409
      · rw [updateUserHandler_ok s p r w hv hfind hp] at h409
        simp at h409
    · exact ⟨u, findUser_mem _ _ _ hfind, findUser_username _ _ _ hfind⟩
  · intro hex
    obtain ⟨u, hfind⟩ := (findUser_isSome_iff s.users r.Username).mpr hex
    rw [updateUserHandler_conflict s p r u hv hfind]

/-- Witness for the amended C2 at a concrete state. -/
theorem update_409_iff_witness :
    ((updateUserHandler ⟨[⟨"alice01", "$2b$x", "a@b.com", "1990", []⟩], []⟩
        "alice01" ⟨"bobby1", "pw", "a@b.com", "1990"⟩).1 = 409 ↔
      ∃ u ∈ [(⟨"alice01", "$2b$x", "a@b.com", "1990", []⟩ : UserRec)],
        u.Username = "bobby1") :=
  update_409_iff_target_username_exists
    ⟨[⟨"alice01", "$2b$x", "a@b.com", "1990", []⟩], []⟩
    "alice01" ⟨"bobby1", "pw", "a@b.com", "1990"⟩ (by rfl)

/-- C3: addFavorite is idempotent — when the movie-id string casts and is
already a member of the found user's favorites, the route answers 201 and
the state is wholly unchanged; and `$addToSet` keeps a duplicate-free
favorites array duplicate-free. -/
theorem addFavorite_idempotent (s : AppState) (uname mid : String)
    (u : UserRec) (hu : findUser s.users uname = some u)
    (hmid : isValidObjectId mid = true)
    (hmem : mid ∈ u.FavoriteMovies) :
    addFavoriteHandler s uname mid = (201, s) ∧
      ∀ l : List String, l.Nodup → (addToSet l mid).Nodup := by
  constructor
  · rw [addFavoriteHandler_found s uname mid u hmid hu]
    have hfix : addFavToUser mid u = u := by
      unfold addFavToUser
      rw [orEmpty_eq, addToSet_of_mem u.FavoriteMovies mid hmem]
    rw [updateFirst_eq_of_fix s.users uname (addFavToUser mid) u hu hfix]
  · exact fun l hl => nodup_addToSet l mid hl

/-- Witness for C3 at a concrete state. -/
theorem addFavorite_idempotent_witness :
    addFavoriteHandler
        ⟨[⟨"alice01", "$2b$pw", "a@b.com", "1990", ["aaaaaaaaaaaaaaaaaaaaaaaa"]⟩],
          ["aaaaaaaaaaaaaaaaaaaaaaaa"]⟩ "alice01" "aaaaaaaaaaaaaaaaaaaaaaaa" =
      (201, ⟨[⟨"alice01", "$2b$pw", "a@b.com", "1990",
        ["aaaaaaaaaaaaaaaaaaaaaaaa"]⟩], ["aaaaaaaaaaaaaaaaaaaaaaaa"]⟩) ∧
      ∀ l : List String, l.Nodup → (addToSet l "aaaaaaaaaaaaaaaaaaaaaaaa").Nodup :=
  addFavorite_idempotent
    ⟨[⟨"alice01", "$2b$pw", "a@b.com", "1990", ["aaaaaaaaaaaaaaaaaaaaaaaa"]⟩],
      ["aaaaaaaaaaaaaaaaaaaaaaaa"]⟩ "alice01" "aaaaaaaaaaaaaaaaaaaaaaaa"
    ⟨"alice01", "$2b$pw", "a@b.com", "1990", ["aaaaaaaaaaaaaaaaaaaaaaaa"]⟩
    (by rfl) (by rfl) (by decide)

/-- C4: for an existing user and an existing movie, adding then removing the
same favorite leaves a favorites set that excludes the id, and removing an
id absent from the favorites set is a 200 no-op on the whole state. -/
theorem addFavorite_then_removeFavorite (s : AppState) (uname mid : String)
    (u : UserRec) (hu : findUser s.users uname = some u)
    (hmid : isValidObjectId mid = true) (hcat : mid ∈ s.movies) :
    (∃ u', findUser (removeFavoriteHandler (addFavoriteHandler s uname mid).2
          uname mid).2.users uname = some u' ∧ mid ∉ u'.FavoriteMovies) ∧
      (mid ∉ u.FavoriteMovies → removeFavoriteHandler s uname mid = (200, s)) := by
  have hpresA : ∀ v : UserRec, (addFavToUser mid v).Username = v.Username :=
    fun v => rfl
  have hpresP : ∀ v : UserRec, (pullFavFromUser mid v).Username = v.Username :=
    fun v => rfl
  constructor
  · rw [addFavoriteHandler_found s uname mid u hmid hu]
    dsimp only
    have h2 : findUser (updateFirst s.users uname (addFavToUser mid)) uname =
        some (addFavToUser mid u) := by
      rw [findUser_updateFirst s.users uname (addFavToUser mid) hpresA, hu]
      rfl
    rw [removeFavoriteHandler_found _ uname mid (addFavToUser mid u) hmid h2]
    dsimp only
    refine ⟨pullFavFromUser mid (addFavToUser mid u), ?_, ?_⟩
    · rw [findUser_updateFirst _ uname (pullFavFromUser mid) hpresP, h2]
      rfl
    · unfold pullFavFromUser
      dsimp only
      rw [orEmpty_eq]
      exact not_mem_pull _ mid
  · intro hnot
    rw [removeFavoriteHandler_found s uname mid u hmid hu]
    have hfix : pullFavFromUser mid u = u := by
      unfold pullFavFromUser
      rw [orEmpty_eq, pull_of_not_mem u.FavoriteMovies mid hnot]
    rw [updateFirst_eq_of_fix s.users uname (pullFavFromUser mid) u hu hfix]

/-- Witness for C4 at a concrete state. -/
theorem addFavorite_then_removeFavorite_witness :
    (∃ u', findUser (removeFavoriteHandler (addFavoriteHandler
          ⟨[⟨"alice01", "$2b$pw", "a@b.com", "1990", []⟩],
            ["aaaaaaaaaaaaaaaaaaaaaaaa"]⟩ "alice01" "aaaaaaaaaaaaaaaaaaaaaaaa").2
          "alice01" "aaaaaaaaaaaaaaaaaaaaaaaa").2.users "alice01" = some u' ∧
        "aaaaaaaaaaaaaaaaaaaaaaaa" ∉ u'.FavoriteMovies) ∧
      ("aaaaaaaaaaaaaaaaaaaaaaaa" ∉
          (⟨"alice01", "$2b$pw", "a@b.com", "1990", []⟩ : UserRec).FavoriteMovies →
        removeFavoriteHandler
            ⟨[⟨"alice01", "$2b$pw", "a@b.com", "1990", []⟩],
              ["aaaaaaaaaaaaaaaaaaaaaaaa"]⟩ "alice01" "aaaaaaaaaaaaaaaaaaaaaaaa" =
          (200, ⟨[⟨"alice01", "$2b$pw", "a@b.com", "1990", []⟩],
            ["aaaaaaaaaaaaaaaaaaaaaaaa"]⟩)) :=
  addFavorite_then_removeFavorite
    ⟨[⟨"alice01", "$2b$pw", "a@b.com", "1990", []⟩], ["aaaaaaaaaaaaaaaaaaaaaaaa"]⟩
    "alice01" "aaaaaaaaaaaaaaaaaaaaaaaa"
    ⟨"alice01", "$2b$pw", "a@b.com", "1990", []⟩ (by rfl) (by rfl) (by decide)

theorem validateFields_eq_false_iff (r : RegReq) :
    validateFields r = false ↔
      (r.Username.data.length < 5 ∨ isAlphanumericStr r.Username = false ∨
        r.Password.data.isEmpty = true ∨ isEmail r.Email = false) := by
  unfold validateFields
  rcases h1 : isAlphanumericStr r.Username with _ | _ <;>
    rcases h2 : r.Password.data.isEmpty with _ | _ <;>
      rcases h3 : isEmail r.Email with _ | _ <;>
        by_cases h4 : 5 ≤ r.Username.data.length <;>
          simp [h4]

/-- C5: registration answers 422 exactly when some field check fails — short
or non-alphanumeric username, empty password, invalid email — a 422 leaves
the state untouched, and a request passing all four checks is never answered
422. -/
theorem register_422_iff_validation_fails (s : AppState) (r : RegReq) :
    ((registerHandler s r).1 = 422 ↔
      (r.Username.data.length < 5 ∨ isAlphanumericStr r.Username = false ∨
        r.Password.data.isEmpty = true ∨ isEmail r.Email = false)) ∧
      ((registerHandler s r).1 = 422 → (registerHandler s r).2 = s) := by
  have hiff := validateFields_eq_false_iff r
  rcases hv : validateFields r with _ | _
  · rw [hv] at hiff
    simp only [true_iff] at hiff
    rw [registerHandler_invalid s r hv]
    exact ⟨⟨fun _ => hiff, fun _ => rfl⟩, fun _ => rfl⟩
  · rw [hv] at hiff
    simp only [Bool.true_eq_false, false_iff] at hiff
    have hne : (registerHandler s r).1 ≠ 422 := by
      rcases hfind : findUser s.users r.Username with _ | u
      · rw [registerHandler_ok s r hv hfind]
        simp
      · rw [registerHandler_dup s r u hv hfind]
        simp
    exact ⟨⟨fun h => absurd h hne, fun h => absurd h hiff⟩, fun h => absurd h hne⟩

/-- Witness for C5 at a concrete state and request. -/
theorem register_422_iff_witness :
    ((registerHandler ⟨[], []⟩ ⟨"ab1", "pw", "a@b.com", "1990"⟩).1 = 422 ↔
      (("ab1" : String).data.length < 5 ∨ isAlphanumericStr "ab1" = false ∨
        ("pw" : String).data.isEmpty = true ∨ isEmail "a@b.com" = false)) ∧
      ((registerHandler ⟨[], []⟩ ⟨"ab1", "pw", "a@b.com", "1990"⟩).1 = 422 →
        (registerHandler ⟨[], []⟩ ⟨"ab1", "pw", "a@b.com", "1990"⟩).2 = ⟨[], []⟩) :=
  register_422_iff_validation_fails ⟨[], []⟩ ⟨"ab1", "pw", "a@b.com", "1990"⟩

/-- C6: a validated registration whose username is already taken answers 409
and creates no record; and registration preserves the uniqueness of
usernames across the Users collection. -/
theorem register_duplicate_409 (s : AppState) (r : RegReq)
    (hv : validateFields r = true)
    (hdup : ∃ u ∈ s.users, u.Username = r.Username) :
    registerHandler s r = (409, s) ∧
      ∀ (s' : AppState) (r' : RegReq), usernamesUnique s'.users →
        usernamesUnique (registerHandler s' r').2.users := by
  constructor
  · obtain ⟨u, hfind⟩ := (findUser_isSome_iff s.users r.Username).mpr hdup
    exact registerHandler_dup s r u hv hfind
  · intro s' r' huniq
    rcases hv' : validateFields r' with _ | _
    · rw [registerHandler_invalid s' r' hv']
      exact huniq
    · rcases hfind : findUser s'.users r'.Username with _ | u
      · rw [registerHandler_ok s' r' hv' hfind]
        dsimp only
        unfold usernamesUnique
        rw [List.pairwise_append]
        refine ⟨huniq, by simp, ?_⟩
        intro a ha b hb
        rw [List.mem_singleton] at hb
        subst hb
        have := (findUser_eq_none_iff s'.users r'.Username).mp hfind a ha
        simpa using this
      · rw [registerHandler_dup s' r' u hv' hfind]
        exact huniq

/-- Witness for C6 at a concrete duplicate registration. -/
theorem register_duplicate_409_witness :
    registerHandler ⟨[⟨"alice01", "$2b$pw", "a@b.com", "1990", []⟩], []⟩
        ⟨"alice01", "pw2", "b@c.org", "1991"⟩ =
      (409, ⟨[⟨"alice01", "$2b$pw", "a@b.com", "1990", []⟩], []⟩) ∧
      ∀ (s' : AppState) (r' : RegReq), usernamesUnique s'.users →
        usernamesUnique (registerHandler s' r').2.users :=
  register_duplicate_409 ⟨[⟨"alice01", "$2b$pw", "a@b.com", "1990", []⟩], []⟩
    ⟨"alice01", "pw2", "b@c.org", "1991"⟩ (by rfl) (by decide)

/-- C7: a successful (201) registration appends exactly one record whose
Password field holds the hasher's digest of the submitted password, and the
digest is never the raw plaintext. -/
theorem register_stores_hashed_password (s : AppState) (r : RegReq)
    (h : (registerHandler s r).1 = 201) :
    (registerHandler s r).2.users = s.users ++
        [⟨r.Username, hashPassword r.Password, r.Email, r.Birthday, []⟩] ∧
      hashPassword r.Password ≠ r.Password := by
  have hne : hashPassword r.Password ≠ r.Password := by
    intro heq
    cases hpw : r.Password with
    | mk cs =>
        rw [hpw] at heq
        have hlen : ('$' :: '2' :: 'b' :: '$' :: cs).length = cs.length :=
          congrArg List.length (congrArg String.data heq)
        simp only [List.length_cons] at hlen
        omega
  refine ⟨?_, hne⟩
  rcases hv : validateFields r with _ | _
  · rw [registerHandler_invalid s r hv] at h
    simp at h
  · rcases hfind : findUser s.users r.Username with _ | u
    · rw [registerHandler_ok s r hv hfind]
    · rw [registerHandler_dup s r u hv hfind] at h
      simp at h

/-- Witness for C7 at a concrete successful registration. -/
theorem register_stores_hashed_password_witness :
    (registerHandler ⟨[], []⟩ ⟨"alice01", "pw", "a@b.com", "1990"⟩).2.users =
        [] ++ [⟨"alice01", hashPassword "pw", "a@b.com", "1990", []⟩] ∧
      hashPassword "pw" ≠ "pw" :=
  register_stores_hashed_password ⟨[], []⟩ ⟨"alice01", "pw", "a@b.com", "1990"⟩
    (by rfl)

/-- C8: an issued token verifies to its subject strictly before its expiry
and to TokenExpired from the expiry instant on; in general the verifier
accepts a token, returning the subject, exactly when the signature matches
and the current time is before expiresAt. -/
theorem token_verify_spec (secret : Nat) (subject : String)
    (issuedAt lifetime now : Nat) :
    (verifyToken secret now (issueToken secret subject issuedAt lifetime) =
        if issuedAt + lifetime ≤ now then .error .TokenExpired
        else .ok subject) ∧
      ∀ t : Token, verifyToken secret now t = .ok t.subject ↔
        (t.sig = signPayload secret t.subject t.issuedAt t.expiresAt ∧
          now < t.expiresAt) := by
  constructor
  · unfold verifyToken issueToken
    dsimp only
    rw [if_neg (by simp)]
  · intro t
    unfold verifyToken
    by_cases hsig : t.sig = signPayload secret t.subject t.issuedAt t.expiresAt
    · rw [if_neg (fun hne => hne hsig)]
      by_cases hexp : t.expiresAt ≤ now
      · rw [if_pos hexp]
        constructor
        · intro h
          exact absurd h (by simp)
        · rintro ⟨-, hlt⟩
          exact absurd hlt (by omega)
      · rw [if_neg hexp]
        constructor
        · intro _
          exact ⟨hsig, by omega⟩
        · intro _
          rfl
    · rw [if_pos hsig]
      constructor
      · intro h
        exact absurd h (by simp)
      · rintro ⟨h, -⟩
        exact absurd h hsig

/-- Witness for C8 at concrete instants: a token issued at 100 with lifetime
3600 is accepted at 200 and expired at 3700. -/
theorem token_verify_spec_witness :
    verifyToken 7 200 (issueToken 7 "alice01" 100 3600) = .ok "alice01" ∧
      verifyToken 7 3700 (issueToken 7 "alice01" 100 3600) =
        .error .TokenExpired := by
  have h1 := (token_verify_spec 7 "alice01" 100 3600 200).1
  have h2 := (token_verify_spec 7 "alice01" 100 3600 3700).1
  rw [if_neg (by omega)] at h1
  rw [if_pos (by omega)] at h2
  exact ⟨h1, h2⟩

/-- C9: GET /users serialises the stored user documents verbatim — the
Password digests included; no credential field is redacted. -/
theorem listUsers_full_documents (s : AppState) :
    listUsers s = s.users ∧
      (listUsers s).map UserRec.Password = s.users.map UserRec.Password :=
  ⟨rfl, rfl⟩

/-- C10: a 200 profile update rewrites exactly Username, Password (hashed),
Email and Birthday on the first document matching the path parameter, keeps
that document's FavoriteMovies, and leaves every other document in place. -/
theorem update_sets_exactly_profile_fields (s : AppState) (p : String)
    (r : RegReq) (h : (updateUserHandler s p r).1 = 200) :
    ∃ pre u post, s.users = pre ++ u :: post ∧ u.Username = p ∧
      (∀ v ∈ pre, v.Username ≠ p) ∧
      (updateUserHandler s p r).2.users =
        pre ++ ⟨r.Username, hashPassword r.Password, r.Email, r.Birthday,
          u.FavoriteMovies⟩ :: post := by
  rcases hv : validateFields r with _ | _
  · rw [updateUserHandler_invalid s p r hv] at h
    simp at h
  · rcases hfree : findUser s.users r.Username with _ | w
    · rcases hp : findUser s.users p with _ | u
      · rw [updateUserHandler_notfound s p r hv hfree hp] at h
        simp at h
      · obtain ⟨pre, post, hsplit, hpre, hupd⟩ := findUser_decomp s.users p u hp
        refine ⟨pre, u, post, hsplit, findUser_username _ _ _ hp, hpre, ?_⟩
        rw [updateUserHandler_ok s p r u hv hfree hp]
        dsimp only
        rw [hupd (setProfile r)]
        rfl
    · rw [updateUserHandler_conflict s p r w hv hfree] at h
      simp at h

/-- Witness for C10 at a concrete successful rename. -/
theorem update_sets_exactly_profile_fields_witness :
    ∃ pre u post,
      (AppState.mk [⟨"alice01", "$2b$old", "a@b.com", "1990",
        ["aaaaaaaaaaaaaaaaaaaaaaaa"]⟩] []).users = pre ++ u :: post ∧
      u.Username = "alice01" ∧ (∀ v ∈ pre, v.Username ≠ "alice01") ∧
      (updateUserHandler ⟨[⟨"alice01", "$2b$old", "a@b.com", "1990",
          ["aaaaaaaaaaaaaaaaaaaaaaaa"]⟩], []⟩ "alice01"
          ⟨"bobby1", "pw", "b@c.org", "1991"⟩).2.users =
        pre ++ ⟨"bobby1", hashPassword "pw", "b@c.org", "1991",
          u.FavoriteMovies⟩ :: post :=
  update_sets_exactly_profile_fields
    ⟨[⟨"alice01", "$2b$old", "a@b.com", "1990", ["aaaaaaaaaaaaaaaaaaaaaaaa"]⟩], []⟩
    "alice01" ⟨"bobby1", "pw", "b@c.org", "1991"⟩ (by rfl)

end MyFlix
